import Mathlib

/-!
# Verification of the contribx issue-claim core

Shallow embedding of the contribx repository's data-access and client layers:

* the Firestore service module (the second, cache-and-retry version of
  `occupyIssueTransaction` in the data-access file, the one that takes a
  `maxRetries` parameter and owns `teamIssueCountCache`), and
* the client layer `AppContext.tsx` (`occupyIssue`, `closeIssue`,
  `updatePrStatus`, `checkExpiredIssues`).

Conventions of the embedding:

* Firestore documents become Lean structures; the issues collection and the
  teams collection become lists.  Timestamps are `Int` milliseconds.
* Fallible I/O (the initial `getDoc`, the quota `getDocs`, `runTransaction`)
  is given an explicit fault oracle in `OccupyEnv`; `none` means the call
  succeeds against the modelled store.
* JavaScript truthiness is modelled where the source relies on it
  (`issue.occupiedAt &&`, `issue.assignedTo &&`: `0`, `""` and `null` are
  falsy).
* A JavaScript `let` declaration is hoisted to the top of its block but stays
  in its temporal dead zone until the declaring statement runs; touching the
  binding earlier throws a `ReferenceError`.  The live retry loop of
  `occupyIssueTransaction` assigns `lastError = error` in its catch clause
  while the `let lastError` declaration sits in unreachable code after the
  loop's `return`, so every caught error aborts the call with that
  `ReferenceError` (modelled by `tdzError`), which the outer catch then
  reports.
-/

namespace Contribx

/-- An issue document, as stored in the `issues` collection and as held in the
client's `issues` state (timestamps already converted to milliseconds). -/
structure Issue where
  id : String
  title : String
  tags : List String
  status : String
  assignedTo : Option String
  occupiedAt : Option Int
  closedAt : Option Int
  prUrl : Option String
  prStatus : Option String
  lastUpdated : Option Int
deriving Repr, DecidableEq

/-- A team document from the `teams` collection. -/
structure Team where
  name : String
  points : Int
  active : Bool
deriving Repr, DecidableEq

/-- One entry of `teamIssueCountCache`: occupied count plus the sampling
instant. -/
structure CacheEntry where
  count : Nat
  timestamp : Int
deriving Repr, DecidableEq

/-- The result value `{ success: boolean; error?: string }` returned by the
claim functions. -/
structure OccupyResult where
  success : Bool
  error : Option String
deriving Repr, DecidableEq

/-- A JavaScript error as the service observes it: a message and an optional
Firestore error code. -/
structure JsError where
  message : String
  code : Option String
deriving Repr, DecidableEq

/-- Constant `CACHE_TTL = 5000`: 5 second TTL of the team quota cache. -/
def CACHE_TTL : Int := 5000

/-- The quota-exceeded message of `occupyIssueTransaction` (both the fresh
cache pre-check and the authoritative query use the same text). -/
def quotaMsg : String :=
  "Your team has already occupied 3 issues. Please close an issue before occupying a new one."

/-- The `ReferenceError` raised when the catch clause of the live retry loop
executes `lastError = error`: the `let lastError` declaration only occurs in
unreachable code after the loop's return statement, so the binding is still in
its temporal dead zone.  (Engines decorate the message with quotes around the
variable name; the exact wording is engine specific and not load-bearing
here.)  The error carries no Firestore `code`. -/
def tdzError : JsError :=
  { message := "Cannot access lastError before initialization", code := none }

/-- The quota cache `teamIssueCountCache : Map<string, CacheEntry>`. -/
abbrev QuotaCache := List (String × CacheEntry)

/-- Model of `Map.prototype.set`: replace the entry in place when the key exists,
append it otherwise. -/
def cacheSet (c : QuotaCache) (k : String) (v : CacheEntry) : QuotaCache :=
  if (c.lookup k).isSome then
    c.map (fun p => if p.1 == k then (p.1, v) else p)
  else
    c ++ [(k, v)]

/-- The outer catch of `occupyIssueTransaction` (source lines 705-734 of the
service file): map Firestore error codes to fixed messages, otherwise return
`error.message || 'Failed to occupy issue. Please try again.'`. -/
def outerCatch (e : JsError) : OccupyResult :=
  if e.code == some "permission-denied" then
    ⟨false, some "You do not have permission to occupy this issue."⟩
  else if e.code == some "failed-precondition" then
    ⟨false, some "The issue status has changed. Please refresh and try again."⟩
  else if e.code == some "unavailable" || e.code == some "deadline-exceeded" then
    ⟨false, some "The service is temporarily unavailable. Please try again in a moment."⟩
  else
    ⟨false, some (if e.message == "" then "Failed to occupy issue. Please try again." else e.message)⟩

/-- The update applied to the matching document by the transaction's occupy
write: status `occupied`, the claiming team, and the `occupiedAt` and
`lastUpdated` stamps. -/
def occupyUpd (issueId teamName : String) (t : Int) (i : Issue) : Issue :=
  if i.id == issueId then
    { i with status := "occupied", assignedTo := some teamName,
             occupiedAt := some t, lastUpdated := some t }
  else i

/-- The atomic write queued by the transaction body: apply `occupyUpd` to the
matching issue document. -/
def occupyWrite (issues : List Issue) (issueId teamName : String) (t : Int) : List Issue :=
  issues.map (occupyUpd issueId teamName t)

/-- The `runTransaction` body (source lines 583-607): re-read the issue, throw
if it vanished, is no longer `open`, or is already assigned to this team,
otherwise queue the occupy write.  A thrown error aborts the transaction with
no write. -/
def txBody (issues : List Issue) (issueId teamName : String) (updateTime : Int) :
    Except JsError (List Issue) :=
  match issues.find? (fun i => i.id == issueId) with
  | none => .error { message := "Issue no longer exists", code := none }
  | some currentData =>
    if currentData.status != "open" then
      .error { message := "This issue is already " ++ currentData.status ++
                          ". Please choose another issue.", code := none }
    else if currentData.assignedTo == some teamName then
      .error { message := "Your team is already assigned to this issue.", code := none }
    else
      .ok (occupyWrite issues issueId teamName updateTime)

/-- The oracle inputs of one `occupyIssueTransaction` call: the clock readings
and injected faults of each I/O step.  `rand` is the `Math.random()` draw of
the passive cache-eviction block (source lines 736-744); it is never consumed
because that block sits after a try/catch in which every path returns, so it
is unreachable. -/
structure OccupyEnv where
  /-- Reading of `Date.now()` captured as `currentTime` before the retry loop. -/
  now : Int
  /-- Reading of `Date.now()` inside the transaction body for `occupiedAt`. -/
  txTime : Int
  /-- Fault of the initial `getDoc(issueRef)` outside the loop. -/
  preFault : Option JsError
  /-- Fault of the quota `getDocs` query inside the loop. -/
  queryFault : Option JsError
  /-- Transient fault of `runTransaction` itself. -/
  txFault : Option JsError
  /-- The `Math.random()` draw of the dead eviction block. -/
  rand : Rat
deriving Repr

/-- Result of one `occupyIssueTransaction` call: the returned value plus the
post-state of the issues collection and of the quota cache. -/
structure OccupyOutcome where
  result : OccupyResult
  issues : List Issue
  cache : QuotaCache
deriving Repr, DecidableEq

/-- The transaction step of attempt 0 (source lines 583-618).  When the
transaction or its body fails, the catch clause at line 620 immediately
trips the `lastError` temporal dead zone, so the original error is replaced
by `tdzError` and the call unwinds to the outer catch with no retry; the
`includes('already')` short-circuit and the backoff are never reached. -/
def occupyTx (env : OccupyEnv) (issues : List Issue) (cache : QuotaCache)
    (issueId teamName : String) : OccupyOutcome :=
  match env.txFault with
  | some _ => ⟨outerCatch tdzError, issues, cache⟩
  | none =>
    match txBody issues issueId teamName env.txTime with
    | .error _ => ⟨outerCatch tdzError, issues, cache⟩
    | .ok issues' =>
      -- on success, bump the cached count in place (timestamp := currentTime)
      ⟨⟨true, none⟩, issues',
        match cache.lookup teamName with
        | some e => cacheSet cache teamName ⟨e.count + 1, env.now⟩
        | none => cache⟩

/-- Value `snapshot.size` of the authoritative quota query: the query carries
`limit(3)`, so at most 3 matching documents are returned. -/
def quotaQuerySize (issues : List Issue) (teamName : String) : Nat :=
  min (issues.filter fun i =>
    i.assignedTo == some teamName && i.status == "occupied").length 3

/-- Attempt 0 of the retry for-loop (source lines 555-636), plus the
`lastError?.message` read after the loop for `maxRetries = 0`.  `haveFresh`
records whether the pre-loop cache probe found a fresh entry (in which case
the authoritative quota query is skipped).  Because the catch clause of the
loop aborts the whole call on any error (see `tdzError`), the loop never
advances past attempt 0; the linear backoff at lines 629-634 is dead code. -/
def occupyAttempt (env : OccupyEnv) (issues : List Issue) (cache : QuotaCache)
    (issueId teamName : String) (maxRetries : Nat) (haveFresh : Bool) : OccupyOutcome :=
  if maxRetries == 0 then
    -- the loop body never runs; line 639 reads `lastError` inside its
    -- temporal dead zone and the ReferenceError lands in the outer catch
    ⟨outerCatch tdzError, issues, cache⟩
  else if haveFresh then
    occupyTx env issues cache issueId teamName
  else
    match env.queryFault with
    | some _ => ⟨outerCatch tdzError, issues, cache⟩
    | none =>
      if 3 ≤ quotaQuerySize issues teamName then
        -- returns before the cache is refreshed
        ⟨⟨false, some quotaMsg⟩, issues, cache⟩
      else
        occupyTx env issues
          (cacheSet cache teamName ⟨quotaQuerySize issues teamName, env.now⟩)
          issueId teamName

/-- Function `occupyIssueTransaction(issueId, teamName, maxRetries = 3)` - the second,
cache-and-retry version in the service file (source lines 515-745): input
validation, initial `getDoc` status pre-check, fresh-cache quota pre-check,
then the retry loop (`occupyAttempt`).  The passive cache eviction block at
lines 736-744 is after a try/catch in which every path returns, so no call
ever executes it and `env.rand` is never consulted. -/
def occupyIssueTransaction (env : OccupyEnv) (issues : List Issue)
    (cache : QuotaCache) (issueId teamName : String)
    (maxRetries : Nat := 3) : OccupyOutcome :=
  if issueId == "" || teamName == "" then
    ⟨⟨false, some "Issue ID and team name are required"⟩, issues, cache⟩
  else
    match env.preFault with
    | some e => ⟨outerCatch e, issues, cache⟩
    | none =>
      match issues.find? (fun i => i.id == issueId) with
      | none => ⟨⟨false, some "Issue not found"⟩, issues, cache⟩
      | some issueData =>
        if issueData.status != "open" then
          ⟨⟨false, some ("This issue is already " ++ issueData.status ++
                         ". Please choose another issue.")⟩, issues, cache⟩
        else
          -- fast pre-check using the cache: the entry is fresh when
          -- currentTime - timestamp < CACHE_TTL (line 545); the loop's quota
          -- query runs iff there is no fresh entry (line 558)
          match cache.lookup teamName with
          | some e =>
            if env.now - e.timestamp < CACHE_TTL then
              if 3 ≤ e.count then
                ⟨⟨false, some quotaMsg⟩, issues, cache⟩
              else
                occupyAttempt env issues cache issueId teamName maxRetries true
            else
              occupyAttempt env issues cache issueId teamName maxRetries false
          | none =>
            occupyAttempt env issues cache issueId teamName maxRetries false

/-- Status of the issue with the given id in a collection snapshot. -/
def statusOf (issues : List Issue) (issueId : String) : Option String :=
  (issues.find? (fun i => i.id == issueId)).map (·.status)

/-- One claim attempt of the serialized history: its oracle inputs and
arguments. -/
structure Attempt where
  env : OccupyEnv
  issueId : String
  teamName : String
  maxRetries : Nat

/-- Run a list of claim attempts back to back against the store, as serialized
by Firestore's per-document transaction isolation; returns each attempt's
result tagged with its target issue id, plus the final store and cache. -/
def runAttempts : List Attempt → List Issue → QuotaCache →
    List (String × OccupyResult) × List Issue × QuotaCache
  | [], issues, cache => ([], issues, cache)
  | a :: as, issues, cache =>
    let o := occupyIssueTransaction a.env issues cache a.issueId a.teamName a.maxRetries
    let rest := runAttempts as o.issues o.cache
    ((a.issueId, o.result) :: rest.1, rest.2.1, rest.2.2)

/-- Number of successful attempts against one issue in a run's result list. -/
def successCount (iid : String) (results : List (String × OccupyResult)) : Nat :=
  (results.filter fun p => p.1 == iid && p.2.success).length

/-! ## Client layer (`AppContext.tsx`) -/

/-- JavaScript truthiness of a nullable string: `null` and `""` are falsy. -/
def jsTruthyStr : Option String → Bool
  | none => false
  | some s => s != ""

/-- JavaScript truthiness of a nullable number: `null` and `0` are falsy. -/
def jsTruthyNum : Option Int → Bool
  | none => false
  | some n => n != 0

/-- Lookup `timeouts[tag] || timeouts.medium` of `checkExpiredIssues`: the time limit
in milliseconds keyed by the issue's first tag, defaulting to medium. -/
def timeoutFor : Option String → Int
  | some "easy" => 20 * 60 * 1000
  | some "medium" => 40 * 60 * 1000
  | some "hard" => 60 * 60 * 1000
  | _ => 40 * 60 * 1000

/-- Lookup `penalties[tag] || 0` of `checkExpiredIssues`. -/
def penaltyFor : Option String → Int
  | some "easy" => 5
  | some "medium" => 10
  | some "hard" => 15
  | _ => 0

/-- Lookup `pointsMap[tag] || 0` of `updatePrStatus`. -/
def pointsFor : Option String → Int
  | some "easy" => 10
  | some "medium" => 20
  | some "hard" => 30
  | _ => 0

/-- The guard of the expiry sweep for one issue (source lines 195-200 of
`AppContext.tsx`): `status === 'occupied' && issue.occupiedAt &&
issue.assignedTo` and `elapsed >= timeLimit`. -/
def expiresNow (now : Int) (issue : Issue) : Bool :=
  issue.status == "occupied" && jsTruthyNum issue.occupiedAt &&
    jsTruthyStr issue.assignedTo &&
    decide (timeoutFor issue.tags.head? ≤ now - issue.occupiedAt.getD 0)

/-- The reset update sent for an expired issue: back to `open` with
`assignedTo`, `occupiedAt` and `closedAt` cleared. -/
def resetIssue (i : Issue) : Issue :=
  { i with status := "open", assignedTo := none, occupiedAt := none, closedAt := none }

/-- The loop body of `checkExpiredIssues` for one issue, acting on the store
accumulator `acc = (teams store, issues store)`.  The team lookup and the
points it deducts from read the fixed pre-sweep snapshot `snapTeams` (the
React state captured by the closure), not the accumulated store: each
expired issue of the same team therefore computes from the same original
points and the last write wins. -/
def sweepStep (now : Int) (snapTeams : List Team)
    (acc : List Team × List Issue) (issue : Issue) : List Team × List Issue :=
  if expiresNow now issue then
    (match issue.assignedTo with
     | some tm =>
       -- `expiresNow` guarantees `assignedTo` is a (non-empty) string
       match snapTeams.find? (fun t => t.name == tm) with
       | some team =>
         acc.1.map fun t =>
           if t.name == team.name then
             { t with points := max 0 (team.points - penaltyFor issue.tags.head?) }
           else t
       | none => acc.1
     | none => acc.1,
     acc.2.map fun i => if i.id == issue.id then resetIssue i else i)
  else acc

/-- Tail of the `for (const issue of issues)` loop of `checkExpiredIssues`
over the remaining iteration list `L`. -/
def sweepGo (now : Int) (snapTeams : List Team) (L : List Issue)
    (acc : List Team × List Issue) : List Team × List Issue :=
  match L with
  | [] => acc
  | issue :: rest => sweepGo now snapTeams rest (sweepStep now snapTeams acc issue)

/-- Function `checkExpiredIssues` (source lines 185-227 of `AppContext.tsx`): sweep all
issues, deducting the penalty (floored at 0) from the assigned team of each
expired occupied issue and resetting that issue to `open`.  The store is
assumed in sync with the local snapshot when the sweep starts. -/
def checkExpiredIssues (now : Int) (teams : List Team) (issues : List Issue) :
    List Team × List Issue :=
  sweepGo now teams issues (teams, issues)

/-- Model of `String.prototype.trim`: strip leading and trailing whitespace.
(Implemented structurally on the character list so that it evaluates inside
the kernel; JavaScript also strips a few exotic Unicode spaces, which no call
site here depends on.) -/
def jsTrim (s : String) : String :=
  ⟨(((s.data.dropWhile Char.isWhitespace).reverse).dropWhile Char.isWhitespace).reverse⟩

/-- Function `closeIssue(issueId, prUrl)` (source lines 404-417): reject a missing or
whitespace-only PR URL, otherwise write `closed`/`closedAt`/trimmed
URL/`pending` to the issue and report success. -/
def closeIssue (issues : List Issue) (issueId prUrl : String) (now : Int) :
    OccupyResult × List Issue :=
  if prUrl == "" || jsTrim prUrl == "" then
    (⟨false, some "PR URL is required"⟩, issues)
  else
    (⟨true, none⟩,
     issues.map fun i =>
       if i.id == issueId then
         { i with status := "closed", closedAt := some now,
                  prUrl := some (jsTrim prUrl), prStatus := some "pending" }
       else i)

/-- Function `updatePrStatus(issueId, status)` (source lines 424-446): write the new
`prStatus`, and when the status is `merged` award the first tag's points to
the team assigned to the issue (as read from the local snapshot).  There is
no guard on the issue's previous `prStatus`. -/
def updatePrStatus (teams : List Team) (issues : List Issue)
    (issueId status : String) : List Team × List Issue :=
  let issues' := issues.map fun i =>
    if i.id == issueId then { i with prStatus := some status } else i
  if status == "merged" then
    match issues.find? (fun i => i.id == issueId) with
    | some issue =>
      if jsTruthyStr issue.assignedTo then
        let pts := pointsFor issue.tags.head?
        match issue.assignedTo with
        | some tm =>
          match teams.find? (fun t => t.name == tm) with
          | some team =>
            (teams.map (fun t =>
               if t.name == team.name then { t with points := team.points + pts } else t),
             issues')
          | none => (teams, issues')
        | none => (teams, issues')
      else (teams, issues')
    | none => (teams, issues')
  else (teams, issues')

/-- Model of `String.prototype.includes`. -/
def strIncludes (s pat : String) : Bool :=
  go s.toList
where
  go : List Char → Bool
    | [] => pat.toList.isEmpty
    | l@(_ :: cs) => pat.toList.isPrefixOf l || go cs

/-- The transient-error indicator substrings of the client retry wrapper. -/
def transientIndicators : List String :=
  ["timed out", "network", "transport errored", "could not reach",
   "err_internet_disconnected", "err_network_changed", "quic"]

/-- Model of `String.prototype.toLowerCase` as used on the error messages (ASCII;
implemented structurally on the character list so it evaluates in the
kernel). -/
def jsToLower (s : String) : String :=
  ⟨s.data.map Char.toLower⟩

/-- The client's transient classification: the lower-cased error message
contains one of the indicator substrings. -/
def isTransientResult (r : OccupyResult) : Bool :=
  let errMsg := jsToLower (r.error.getD "")
  transientIndicators.any fun ind => strIncludes errMsg ind

/-- Function `attemptTransaction` of `occupyIssue` (source lines 344-389):
`MAX_RETRIES = 1`, so at most two wrapped transaction attempts run.  Each
wrapped attempt resolves to the transaction's own result, to the timeout
result, or to a rejection message - all three cases are covered by letting
`r0`/`r1` be arbitrary results.  A success or a non-transient failure returns
immediately; after two transient failures the fixed retries-exhausted message
is returned. -/
def attemptTransaction (r0 r1 : OccupyResult) : OccupyResult :=
  if r0.success then r0
  else if !isTransientResult r0 then r0
  else if r1.success then r1
  else if !isTransientResult r1 then r1
  else ⟨false, some "Transaction failed after retries. Please check your connection and try again."⟩

/-- The client state `occupyIssue` touches. -/
structure ClientState where
  currentTeam : Option Team
  issues : List Issue
deriving Repr, DecidableEq

/-- Function `occupyIssue(issueId)` (source lines 290-402 of `AppContext.tsx`): login,
connectivity and local pre-checks, then the optimistic mutation
(`status/assignedTo/occupiedAt`), the wrapped transaction attempts, and on
any failing result the restore of the pre-attempt snapshot
(`setIssues(previousIssues)`).  Returns the result together with the final
local issue list. -/
def occupyIssue (st : ClientState) (issueId : String) (online : Bool)
    (now : Int) (r0 r1 : OccupyResult) : OccupyResult × List Issue :=
  match st.currentTeam with
  | none => (⟨false, some "You must be logged in to occupy an issue."⟩, st.issues)
  | some team =>
    if !online then
      (⟨false, some "No internet connection"⟩, st.issues)
    else
      match st.issues.find? (fun i => i.id == issueId) with
      | none => (⟨false, some "Issue not found."⟩, st.issues)
      | some issue =>
        if issue.status != "open" then
          (⟨false, some ("This issue is already " ++ issue.status ++
                         ". Please choose another issue.")⟩, st.issues)
        else if 3 ≤ (st.issues.filter fun i =>
            i.assignedTo == some team.name && i.status == "occupied").length then
          (⟨false, some quotaMsg⟩, st.issues)
        else
          -- optimistic update (the speculative map over the list), then the
          -- wrapped transaction attempts; on failure the pre-attempt snapshot
          -- `previousIssues = [...issues]` is restored via setIssues
          if (attemptTransaction r0 r1).success then
            (attemptTransaction r0 r1,
             st.issues.map fun i =>
               if i.id == issueId then
                 { i with status := "occupied", assignedTo := some team.name,
                          occupiedAt := some now }
               else i)
          else
            (attemptTransaction r0 r1, st.issues)

/-! ## Concrete states used by witnesses and counterexamples -/

/-- Issue constructor with the fields the scenarios vary. -/
def mkIssue (id status : String) (tags : List String) (assignedTo : Option String)
    (occupiedAt : Option Int) : Issue :=
  { id := id, title := id, tags := tags, status := status, assignedTo := assignedTo,
    occupiedAt := occupiedAt, closedAt := none, prUrl := none, prStatus := none,
    lastUpdated := none }

/-- A fault-free oracle: clocks at 0/1, no injected I/O failures. -/
def benignEnv : OccupyEnv :=
  { now := 0, txTime := 1, preFault := none, queryFault := none, txFault := none,
    rand := 1 / 2 }

/-- A fault-free oracle whose clock has advanced past the cache TTL and whose
`Math.random()` draw is below the 10 percent eviction threshold. -/
def expiredCacheEnv : OccupyEnv :=
  { now := 10000, txTime := 10001, preFault := none, queryFault := none,
    txFault := none, rand := 0 }

/-! ## Helper lemmas -/

theorem outerCatch_success (e : JsError) : (outerCatch e).success = false := by
  unfold outerCatch
  repeat' split
  all_goals rfl

theorem outerCatch_error_isSome (e : JsError) : (outerCatch e).error.isSome := by
  unfold outerCatch
  repeat' split
  all_goals rfl

theorem occupyUpd_id (iid tm : String) (t : Int) (i : Issue) :
    (occupyUpd iid tm t i).id = i.id := by
  unfold occupyUpd
  split <;> rfl

theorem find?_occupyWrite (issues : List Issue) (iid tm : String) (t : Int) (j : String) :
    (occupyWrite issues iid tm t).find? (fun i => i.id == j) =
      (issues.find? (fun i => i.id == j)).map (occupyUpd iid tm t) := by
  unfold occupyWrite
  rw [List.find?_map]
  have hp : ((fun i => i.id == j) ∘ occupyUpd iid tm t) = fun i => i.id == j :=
    funext fun i => by simp [Function.comp_apply, occupyUpd_id]
  rw [hp]

theorem statusOf_occupyWrite_self (issues : List Issue) (iid tm : String) (t : Int)
    (h : (statusOf issues iid).isSome) :
    statusOf (occupyWrite issues iid tm t) iid = some "occupied" := by
  unfold statusOf at h ⊢
  rw [find?_occupyWrite]
  obtain ⟨i, hfind⟩ : ∃ i, issues.find? (fun i => i.id == iid) = some i := by
    cases hf : issues.find? (fun i => i.id == iid) with
    | none => rw [hf] at h; simp at h
    | some i => exact ⟨i, rfl⟩
  have hid : (i.id == iid) = true := by simpa using List.find?_some hfind
  rw [hfind]
  simp [occupyUpd, hid]

theorem statusOf_occupyWrite_other (issues : List Issue) (iid tm : String) (t : Int)
    (j : String) (hj : j ≠ iid) :
    statusOf (occupyWrite issues iid tm t) j = statusOf issues j := by
  unfold statusOf
  rw [find?_occupyWrite]
  cases hf : issues.find? (fun i => i.id == j) with
  | none => rfl
  | some i =>
    have hid : (i.id == j) = true := by simpa using List.find?_some hf
    have hij : i.id = j := by simpa using hid
    have hne : (i.id == iid) = false := by simp [hij, hj]
    simp [occupyUpd, hne]

theorem txBody_ok_spec {issues : List Issue} {iid tm : String} {t : Int}
    {issues' : List Issue} (h : txBody issues iid tm t = .ok issues') :
    issues' = occupyWrite issues iid tm t ∧ statusOf issues iid = some "open" := by
  unfold txBody at h
  split at h
  · exact absurd h (by simp)
  · rename_i cur hfind
    split at h
    · exact absurd h (by simp)
    · split at h
      · exact absurd h (by simp)
      · rename_i hstat _
        have hopen : cur.status = "open" := by simpa using hstat
        simp only [Except.ok.injEq] at h
        exact ⟨h.symm, by simp [statusOf, hfind, hopen]⟩

theorem occupyTx_spec (env : OccupyEnv) (issues : List Issue) (cache : QuotaCache)
    (iid tm : String) :
    ((occupyTx env issues cache iid tm).result.success = false ∧
     (occupyTx env issues cache iid tm).issues = issues) ∨
    ((occupyTx env issues cache iid tm).result.success = true ∧
     (occupyTx env issues cache iid tm).issues = occupyWrite issues iid tm env.txTime ∧
     statusOf issues iid = some "open") := by
  unfold occupyTx
  split
  · exact Or.inl ⟨outerCatch_success _, rfl⟩
  · split
    · exact Or.inl ⟨outerCatch_success _, rfl⟩
    · rename_i issues' heq
      rcases txBody_ok_spec heq with ⟨h1, h2⟩
      exact Or.inr ⟨rfl, by simpa using h1, h2⟩

theorem occupyAttempt_spec (env : OccupyEnv) (issues : List Issue) (cache : QuotaCache)
    (iid tm : String) (mr : Nat) (hf : Bool) :
    ((occupyAttempt env issues cache iid tm mr hf).result.success = false ∧
     (occupyAttempt env issues cache iid tm mr hf).issues = issues) ∨
    ((occupyAttempt env issues cache iid tm mr hf).result.success = true ∧
     (occupyAttempt env issues cache iid tm mr hf).issues =
       occupyWrite issues iid tm env.txTime ∧
     statusOf issues iid = some "open") := by
  unfold occupyAttempt
  split
  · exact Or.inl ⟨outerCatch_success _, rfl⟩
  · split
    · exact occupyTx_spec ..
    · split
      · exact Or.inl ⟨outerCatch_success _, rfl⟩
      · split
        · exact Or.inl ⟨rfl, rfl⟩
        · exact occupyTx_spec ..

theorem occupy_spec (env : OccupyEnv) (issues : List Issue) (cache : QuotaCache)
    (iid tm : String) (mr : Nat) :
    ((occupyIssueTransaction env issues cache iid tm mr).result.success = false ∧
     (occupyIssueTransaction env issues cache iid tm mr).issues = issues) ∨
    ((occupyIssueTransaction env issues cache iid tm mr).result.success = true ∧
     (occupyIssueTransaction env issues cache iid tm mr).issues =
       occupyWrite issues iid tm env.txTime ∧
     statusOf issues iid = some "open") := by
  unfold occupyIssueTransaction
  split
  · exact Or.inl ⟨rfl, rfl⟩
  · split
    · exact Or.inl ⟨outerCatch_success _, rfl⟩
    · split
      · exact Or.inl ⟨rfl, rfl⟩
      · split
        · exact Or.inl ⟨rfl, rfl⟩
        · split
          · split
            · split
              · exact Or.inl ⟨rfl, rfl⟩
              · exact occupyAttempt_spec ..
            · exact occupyAttempt_spec ..
          · exact occupyAttempt_spec ..

theorem occupyTx_fail_error (env : OccupyEnv) (issues : List Issue)
    (cache : QuotaCache) (iid tm : String) :
    (occupyTx env issues cache iid tm).result.success = false →
    (occupyTx env issues cache iid tm).result.error.isSome := by
  unfold occupyTx
  split
  · intro _; exact outerCatch_error_isSome _
  · split
    · intro _; exact outerCatch_error_isSome _
    · intro h; exact absurd h (by simp)

theorem occupyAttempt_fail_error (env : OccupyEnv) (issues : List Issue)
    (cache : QuotaCache) (iid tm : String) (mr : Nat) (hf : Bool) :
    (occupyAttempt env issues cache iid tm mr hf).result.success = false →
    (occupyAttempt env issues cache iid tm mr hf).result.error.isSome := by
  unfold occupyAttempt
  split
  · intro _; exact outerCatch_error_isSome _
  · split
    · exact occupyTx_fail_error _ _ _ _ _
    · split
      · intro _; exact outerCatch_error_isSome _
      · split
        · intro _; rfl
        · exact occupyTx_fail_error _ _ _ _ _

theorem occupy_fail_error_isSome (env : OccupyEnv) (issues : List Issue)
    (cache : QuotaCache) (iid tm : String) (mr : Nat) :
    (occupyIssueTransaction env issues cache iid tm mr).result.success = false →
    (occupyIssueTransaction env issues cache iid tm mr).result.error.isSome := by
  unfold occupyIssueTransaction
  split
  · intro _; rfl
  · split
    · intro _; exact outerCatch_error_isSome _
    · split
      · intro _; rfl
      · split
        · intro _; rfl
        · split
          · split
            · split
              · intro _; rfl
              · exact occupyAttempt_fail_error _ _ _ _ _ _ _
            · exact occupyAttempt_fail_error _ _ _ _ _ _ _
          · exact occupyAttempt_fail_error _ _ _ _ _ _ _

theorem successCount_cons (iid : String) (p : String × OccupyResult)
    (rest : List (String × OccupyResult)) :
    successCount iid (p :: rest) =
      (if p.1 == iid && p.2.success then 1 else 0) + successCount iid rest := by
  unfold successCount
  rw [List.filter_cons]
  split <;> simp [Nat.add_comm]

theorem runAttempts_cons (a : Attempt) (as : List Attempt) (issues : List Issue)
    (cache : QuotaCache) :
    (runAttempts (a :: as) issues cache).1 =
      (a.issueId,
        (occupyIssueTransaction a.env issues cache a.issueId a.teamName a.maxRetries).result) ::
      (runAttempts as
        (occupyIssueTransaction a.env issues cache a.issueId a.teamName a.maxRetries).issues
        (occupyIssueTransaction a.env issues cache a.issueId a.teamName a.maxRetries).cache).1 :=
  rfl

theorem runAttempts_noopen (iid : String) :
    ∀ (as : List Attempt) (issues : List Issue) (cache : QuotaCache),
      statusOf issues iid ≠ some "open" →
      successCount iid (runAttempts as issues cache).1 = 0 := by
  intro as
  induction as with
  | nil => intro issues cache _; rfl
  | cons a as ih =>
    intro issues cache h
    rw [runAttempts_cons, successCount_cons]
    rcases occupy_spec a.env issues cache a.issueId a.teamName a.maxRetries with
      ⟨hs, hi⟩ | ⟨hs, hi, hopen⟩
    · rw [hs, hi]
      rw [if_neg (by simp), Nat.zero_add]
      exact ih issues _ h
    · by_cases hiid : a.issueId = iid
      · exact absurd (hiid ▸ hopen) h
      · have hbeq : (a.issueId == iid) = false := by simp [hiid]
        rw [hbeq, hi]
        rw [if_neg (by simp), Nat.zero_add]
        refine ih _ _ ?_
        rw [statusOf_occupyWrite_other _ _ _ _ iid (fun he => hiid he.symm)]
        exact h

theorem runAttempts_le_one (iid : String) :
    ∀ (as : List Attempt) (issues : List Issue) (cache : QuotaCache),
      successCount iid (runAttempts as issues cache).1 ≤ 1 := by
  intro as
  induction as with
  | nil => intro issues cache; exact Nat.zero_le 1
  | cons a as ih =>
    intro issues cache
    rw [runAttempts_cons, successCount_cons]
    rcases occupy_spec a.env issues cache a.issueId a.teamName a.maxRetries with
      ⟨hs, _⟩ | ⟨hs, hi, hopen⟩
    · rw [hs]
      rw [if_neg (by simp), Nat.zero_add]
      exact ih _ _
    · by_cases hiid : a.issueId = iid
      · subst hiid
        rw [hs, hi]
        have htail : statusOf (occupyWrite issues a.issueId a.teamName a.env.txTime)
            a.issueId = some "occupied" :=
          statusOf_occupyWrite_self _ _ _ _ (by rw [hopen]; rfl)
        have hzero := runAttempts_noopen a.issueId as
          (occupyWrite issues a.issueId a.teamName a.env.txTime)
          (occupyIssueTransaction a.env issues cache a.issueId a.teamName a.maxRetries).cache
          (by rw [htail]; simp)
        rw [hzero]
        simp
      · have hbeq : (a.issueId == iid) = false := by simp [hiid]
        rw [hbeq]
        rw [if_neg (by simp), Nat.zero_add]
        exact ih _ _

theorem runAttempts_fail_error :
    ∀ (as : List Attempt) (issues : List Issue) (cache : QuotaCache),
      ∀ p ∈ (runAttempts as issues cache).1, p.2.success = false → p.2.error.isSome := by
  intro as
  induction as with
  | nil => intro issues cache p hp; simp [runAttempts] at hp
  | cons a as ih =>
    intro issues cache p hp
    rw [runAttempts_cons] at hp
    rcases List.mem_cons.mp hp with hhead | htail
    · subst hhead
      exact occupy_fail_error_isSome a.env issues cache a.issueId a.teamName a.maxRetries
    · exact ih _ _ p htail

theorem find?_map_idPreserving (f : Issue → Issue) (hf : ∀ i, (f i).id = i.id)
    (issues : List Issue) (j : String) :
    (issues.map f).find? (fun i => i.id == j) =
      (issues.find? (fun i => i.id == j)).map f := by
  rw [List.find?_map]
  have hp : ((fun i => i.id == j) ∘ f) = fun i => i.id == j :=
    funext fun i => by simp [Function.comp_apply, hf]
  rw [hp]

theorem lookup_isSome_mapEntry (c : QuotaCache) (k : String) (v : CacheEntry) (j : String)
    (h : (c.lookup j).isSome) :
    ((c.map fun p => if p.1 == k then (p.1, v) else p).lookup j).isSome := by
  induction c with
  | nil => simp at h
  | cons p rest ih =>
    simp only [List.map_cons]
    by_cases hpk : (p.1 == k) = true
    · rw [if_pos hpk]
      by_cases hjp : (j == p.1) = true
      · simp [List.lookup, hjp]
      · simp only [Bool.not_eq_true] at hjp
        simp only [List.lookup, hjp] at h ⊢
        exact ih h
    · rw [if_neg hpk]
      by_cases hjp : (j == p.1) = true
      · simp [List.lookup, hjp]
      · simp only [Bool.not_eq_true] at hjp
        simp only [List.lookup, hjp] at h ⊢
        exact ih h

theorem lookup_isSome_append (c : QuotaCache) (p : String × CacheEntry) (j : String)
    (h : (c.lookup j).isSome) : ((c ++ [p]).lookup j).isSome := by
  induction c with
  | nil => simp at h
  | cons q rest ih =>
    by_cases hjq : (j == q.1) = true
    · simp [List.lookup, hjq]
    · simp only [Bool.not_eq_true] at hjq
      simp only [List.cons_append, List.lookup, hjq] at h ⊢
      exact ih h

theorem cacheSet_lookup_isSome (c : QuotaCache) (k : String) (v : CacheEntry) (j : String)
    (h : (c.lookup j).isSome) : ((cacheSet c k v).lookup j).isSome := by
  unfold cacheSet
  split
  · exact lookup_isSome_mapEntry c k v j h
  · exact lookup_isSome_append c (k, v) j h

theorem occupyTx_cache_isSome (env : OccupyEnv) (issues : List Issue) (cache : QuotaCache)
    (iid tm : String) (j : String) (h : (cache.lookup j).isSome) :
    ((occupyTx env issues cache iid tm).cache.lookup j).isSome := by
  unfold occupyTx
  split
  · exact h
  · split
    · exact h
    · split
      · exact cacheSet_lookup_isSome _ _ _ _ h
      · exact h

theorem occupyAttempt_cache_isSome (env : OccupyEnv) (issues : List Issue)
    (cache : QuotaCache) (iid tm : String) (mr : Nat) (hf : Bool) (j : String)
    (h : (cache.lookup j).isSome) :
    ((occupyAttempt env issues cache iid tm mr hf).cache.lookup j).isSome := by
  unfold occupyAttempt
  split
  · exact h
  · split
    · exact occupyTx_cache_isSome _ _ _ _ _ _ h
    · split
      · exact h
      · split
        · exact h
        · exact occupyTx_cache_isSome _ _ _ _ _ _
            (cacheSet_lookup_isSome _ _ _ _ h)

theorem occupy_cache_isSome (env : OccupyEnv) (issues : List Issue) (cache : QuotaCache)
    (iid tm : String) (mr : Nat) (j : String) (h : (cache.lookup j).isSome) :
    ((occupyIssueTransaction env issues cache iid tm mr).cache.lookup j).isSome := by
  unfold occupyIssueTransaction
  split
  · exact h
  · split
    · exact h
    · split
      · exact h
      · split
        · exact h
        · split
          · split
            · split
              · exact h
              · exact occupyAttempt_cache_isSome _ _ _ _ _ _ _ _ h
            · exact occupyAttempt_cache_isSome _ _ _ _ _ _ _ _ h
          · exact occupyAttempt_cache_isSome _ _ _ _ _ _ _ _ h

theorem occupyAttempt_quota (env : OccupyEnv) (issues : List Issue) (cache : QuotaCache)
    (iid tm : String) (mr : Nat) (hmr : mr ≠ 0) (hq : env.queryFault = none)
    (hcount : 3 ≤ (issues.filter fun i =>
      i.assignedTo == some tm && i.status == "occupied").length) :
    occupyAttempt env issues cache iid tm mr false =
      ⟨⟨false, some quotaMsg⟩, issues, cache⟩ := by
  unfold occupyAttempt
  rw [if_neg (by simp [hmr]), if_neg (by simp)]
  split
  · rename_i e heq
    rw [hq] at heq
    simp at heq
  · rw [if_pos (show 3 ≤ quotaQuerySize issues tm by
      unfold quotaQuerySize; exact le_min hcount (le_refl 3))]

theorem occupyIssue_quota (st : ClientState) (issueId : String) (now : Int)
    (r0 r1 : OccupyResult) (team : Team) (issue : Issue)
    (hteam : st.currentTeam = some team)
    (hfind : st.issues.find? (fun i => i.id == issueId) = some issue)
    (hopen : issue.status = "open")
    (hcount : 3 ≤ (st.issues.filter fun i =>
      i.assignedTo == some team.name && i.status == "occupied").length) :
    occupyIssue st issueId true now r0 r1 = (⟨false, some quotaMsg⟩, st.issues) := by
  unfold occupyIssue
  split
  · rename_i heq
    rw [hteam] at heq
    simp at heq
  · rename_i tm heq
    rw [hteam] at heq
    injection heq with heq'
    subst heq'
    rw [if_neg (by simp)]
    split
    · rename_i hfq
      rw [hfind] at hfq
      simp at hfq
    · rename_i iss hfq
      rw [hfind] at hfq
      injection hfq with hfq'
      subst hfq'
      rw [if_neg (by simp [hopen]), if_pos hcount]

theorem occupyIssue_fail_snd (st : ClientState) (issueId : String) (online : Bool)
    (now : Int) (r0 r1 : OccupyResult) :
    (occupyIssue st issueId online now r0 r1).1.success = false →
    (occupyIssue st issueId online now r0 r1).2 = st.issues := by
  unfold occupyIssue
  split
  · intro _; rfl
  · split
    · intro _; rfl
    · split
      · intro _; rfl
      · split
        · intro _; rfl
        · split
          · intro _; rfl
          · split
            · rename_i hsucc
              intro hf
              exact absurd hf (by simp [hsucc])
            · intro _; rfl

/-! ## Expiry-sweep lemmas -/

theorem find?_map_namePreserving (f : Team → Team) (hf : ∀ t, (f t).name = t.name)
    (teams : List Team) (j : String) :
    (teams.map f).find? (fun t => t.name == j) =
      (teams.find? (fun t => t.name == j)).map f := by
  rw [List.find?_map]
  have hp : ((fun t => t.name == j) ∘ f) = fun t => t.name == j :=
    funext fun t => by simp [Function.comp_apply, hf]
  rw [hp]

theorem find?_teams_map_untouched (f : Team → Team) (hf : ∀ t, (f t).name = t.name)
    (j : String) (hunchanged : ∀ t, t.name = j → f t = t) (teams : List Team) :
    (teams.map f).find? (fun t => t.name == j) =
      teams.find? (fun t => t.name == j) := by
  rw [find?_map_namePreserving f hf]
  cases hfind : teams.find? (fun t => t.name == j) with
  | none => rfl
  | some t =>
    have ht : t.name = j := by simpa using List.find?_some hfind
    simp [hunchanged t ht]

theorem find?_teams_map_set (teams : List Team) (n : String) (P : Int) (t0 : Team)
    (hfind : teams.find? (fun t => t.name == n) = some t0) :
    (teams.map fun t => if t.name == n then { t with points := P } else t).find?
      (fun t => t.name == n) = some { t0 with points := P } := by
  rw [find?_map_namePreserving _ (fun t => by split <;> rfl)]
  rw [hfind]
  have ht : (t0.name == n) = true := by simpa using List.find?_some hfind
  simp only [Option.map_some']
  rw [if_pos ht]

theorem find?_issues_map_reset (issuesAcc : List Issue) (d : String) (x : Issue)
    (hfind : issuesAcc.find? (fun i => i.id == d) = some x) :
    (issuesAcc.map fun i => if i.id == d then resetIssue i else i).find?
      (fun i => i.id == d) = some (resetIssue x) := by
  rw [find?_map_idPreserving _ (fun i => by split <;> rfl)]
  rw [hfind]
  have hx : (x.id == d) = true := by simpa using List.find?_some hfind
  simp only [Option.map_some']
  rw [if_pos hx]

theorem find?_issues_map_untouched (issuesAcc : List Issue) (d d' : String)
    (hne : d' ≠ d) :
    (issuesAcc.map fun i => if i.id == d then resetIssue i else i).find?
      (fun i => i.id == d') = issuesAcc.find? (fun i => i.id == d') := by
  rw [find?_map_idPreserving _ (fun i => by split <;> rfl)]
  cases hfind : issuesAcc.find? (fun i => i.id == d') with
  | none => rfl
  | some x =>
    have hx : x.id = d' := by simpa using List.find?_some hfind
    have hxd : (x.id == d) = false := by simp [hx, hne]
    simp only [Option.map_some']
    rw [if_neg (by simp [hxd])]

theorem find?_eq_of_mem_unique (issues : List Issue) (issue : Issue)
    (hmem : issue ∈ issues) (hids : issues.Pairwise (fun a b => a.id ≠ b.id)) :
    issues.find? (fun i => i.id == issue.id) = some issue := by
  induction issues with
  | nil => simp at hmem
  | cons a rest ih =>
    rcases List.mem_cons.mp hmem with h | h
    · subst h
      simp [List.find?]
    · have hne : a.id ≠ issue.id := (List.pairwise_cons.mp hids).1 issue h
      have : (a.id == issue.id) = false := by simp [hne]
      simp only [List.find?, this]
      exact ih h (List.pairwise_cons.mp hids).2

theorem id_unique_of_pairwise (issues : List Issue)
    (hids : issues.Pairwise (fun a b => a.id ≠ b.id)) :
    ∀ j ∈ issues, ∀ k ∈ issues, k.id = j.id → k = j := by
  induction issues with
  | nil => intro j hj; simp at hj
  | cons a rest ih =>
    intro j hj k hk hkj
    rcases List.pairwise_cons.mp hids with ⟨ha, hrest⟩
    rcases List.mem_cons.mp hj with hj' | hj' <;>
      rcases List.mem_cons.mp hk with hk' | hk'
    · rw [hj', hk']
    · subst hj'
      exact absurd hkj.symm (ha k hk')
    · subst hk'
      exact absurd hkj (ha j hj')
    · exact ih hrest j hj' k hk' hkj

theorem sweepGo_cons (now : Int) (snap : List Team) (j : Issue) (rest : List Issue)
    (acc : List Team × List Issue) :
    sweepGo now snap (j :: rest) acc =
      sweepGo now snap rest (sweepStep now snap acc j) := rfl

theorem sweepGo_append (now : Int) (snap : List Team) (L₁ L₂ : List Issue) :
    ∀ acc, sweepGo now snap (L₁ ++ L₂) acc = sweepGo now snap L₂ (sweepGo now snap L₁ acc) := by
  induction L₁ with
  | nil => intro acc; rfl
  | cons j rest ih =>
    intro acc
    rw [List.cons_append, sweepGo_cons, sweepGo_cons]
    exact ih _

theorem sweepStep_teams_frame (now : Int) (snap : List Team)
    (acc : List Team × List Issue) (j : Issue) (tm : String)
    (h : ¬(expiresNow now j = true ∧ j.assignedTo = some tm)) :
    (sweepStep now snap acc j).1.find? (fun t => t.name == tm) =
      acc.1.find? (fun t => t.name == tm) := by
  unfold sweepStep
  split
  · rename_i hexp
    have hass : j.assignedTo ≠ some tm := fun hc => h ⟨hexp, hc⟩
    split
    · rename_i tm' heq
      have htm' : tm' ≠ tm := fun hc => hass (hc ▸ heq)
      split
      · rename_i team' hteamfind
        have hname : team'.name = tm' := by simpa using List.find?_some hteamfind
        refine find?_teams_map_untouched _ (fun t => by split <;> rfl) tm
          (fun t ht => ?_) acc.1
        have hcond : (t.name == team'.name) = false := by
          rw [ht, hname]
          exact beq_eq_false_iff_ne.mpr (Ne.symm htm')
        rw [if_neg (by simp [hcond])]
      · rfl
    · rfl
  · rfl

theorem sweepStep_teams_set (now : Int) (snap : List Team)
    (acc : List Team × List Issue) (issue : Issue) (tm : String) (team t0 : Team)
    (hexp : expiresNow now issue = true) (hass : issue.assignedTo = some tm)
    (hsnap : snap.find? (fun t => t.name == tm) = some team)
    (hacc : acc.1.find? (fun t => t.name == tm) = some t0) :
    (sweepStep now snap acc issue).1.find? (fun t => t.name == tm) =
      some { t0 with points := max 0 (team.points - penaltyFor issue.tags.head?) } := by
  unfold sweepStep
  rw [if_pos hexp]
  split
  · rename_i tm' heq
    rw [hass] at heq
    injection heq with heq'
    subst heq'
    split
    · rename_i team' hteamfind
      rw [hsnap] at hteamfind
      injection hteamfind with hteamfind'
      subst hteamfind'
      have htn : team.name = tm := by simpa using List.find?_some hsnap
      rw [htn]
      exact find?_teams_map_set acc.1 tm _ t0 hacc
    · rename_i hteamfind
      rw [hsnap] at hteamfind
      simp at hteamfind
  · rename_i heq
    rw [hass] at heq
    simp at heq

theorem sweepStep_issues_reset (now : Int) (snap : List Team)
    (acc : List Team × List Issue) (issue x : Issue)
    (hexp : expiresNow now issue = true)
    (hacc : acc.2.find? (fun i => i.id == issue.id) = some x) :
    (sweepStep now snap acc issue).2.find? (fun i => i.id == issue.id) =
      some (resetIssue x) := by
  unfold sweepStep
  rw [if_pos hexp]
  exact find?_issues_map_reset acc.2 issue.id x hacc

theorem sweepStep_issues_frame (now : Int) (snap : List Team)
    (acc : List Team × List Issue) (j : Issue) (d : String)
    (h : expiresNow now j = true → j.id ≠ d) :
    (sweepStep now snap acc j).2.find? (fun i => i.id == d) =
      acc.2.find? (fun i => i.id == d) := by
  unfold sweepStep
  split
  · rename_i hexp
    exact find?_issues_map_untouched acc.2 j.id d (fun he => (h hexp) he.symm)
  · rfl

theorem sweepGo_teams_frame (now : Int) (snap : List Team) (L : List Issue)
    (tm : String) :
    ∀ acc, (∀ j ∈ L, ¬(expiresNow now j = true ∧ j.assignedTo = some tm)) →
      (sweepGo now snap L acc).1.find? (fun t => t.name == tm) =
        acc.1.find? (fun t => t.name == tm) := by
  induction L with
  | nil => intro acc _; rfl
  | cons j rest ih =>
    intro acc h
    rw [sweepGo_cons, ih _ (fun k hk => h k (List.mem_cons_of_mem _ hk))]
    exact sweepStep_teams_frame now snap acc j tm (h j (List.mem_cons_self _ _))

theorem sweepGo_issues_frame (now : Int) (snap : List Team) (L : List Issue)
    (d : String) :
    ∀ acc, (∀ j ∈ L, expiresNow now j = true → j.id ≠ d) →
      (sweepGo now snap L acc).2.find? (fun i => i.id == d) =
        acc.2.find? (fun i => i.id == d) := by
  induction L with
  | nil => intro acc _; rfl
  | cons j rest ih =>
    intro acc h
    rw [sweepGo_cons, ih _ (fun k hk => h k (List.mem_cons_of_mem _ hk))]
    exact sweepStep_issues_frame now snap acc j d (h j (List.mem_cons_self _ _))

theorem checkExpired_team_points (now : Int) (teams : List Team) (issues : List Issue)
    (issue : Issue) (tm : String) (team : Team)
    (hids : issues.Pairwise (fun a b => a.id ≠ b.id))
    (hmem : issue ∈ issues)
    (hexp : expiresNow now issue = true)
    (hass : issue.assignedTo = some tm)
    (hteam : teams.find? (fun x => x.name == tm) = some team)
    (honly : ∀ j ∈ issues, j.id ≠ issue.id →
      ¬(expiresNow now j = true ∧ j.assignedTo = some tm)) :
    (checkExpiredIssues now teams issues).1.find? (fun x => x.name == tm) =
      some { team with points := max 0 (team.points - penaltyFor issue.tags.head?) } := by
  obtain ⟨L₁, L₂, rfl⟩ := List.append_of_mem hmem
  rcases List.pairwise_append.mp hids with ⟨_, hpair2, hcross⟩
  rcases List.pairwise_cons.mp hpair2 with ⟨hidsL₂, _⟩
  have hcondL₂ : ∀ j ∈ L₂, ¬(expiresNow now j = true ∧ j.assignedTo = some tm) :=
    fun j hj => honly j (List.mem_append_right _ (List.mem_cons_of_mem _ hj))
      (Ne.symm (hidsL₂ j hj))
  have hcondL₁ : ∀ j ∈ L₁, ¬(expiresNow now j = true ∧ j.assignedTo = some tm) :=
    fun j hj => honly j (List.mem_append_left _ hj)
      (hcross j hj issue (List.mem_cons_self _ _))
  unfold checkExpiredIssues
  rw [sweepGo_append, sweepGo_cons]
  rw [sweepGo_teams_frame now teams L₂ tm _ hcondL₂]
  exact sweepStep_teams_set now teams _ issue tm team team hexp hass hteam
    ((sweepGo_teams_frame now teams L₁ tm _ hcondL₁).trans hteam)

theorem checkExpired_issue_reset (now : Int) (teams : List Team) (issues : List Issue)
    (issue : Issue)
    (hids : issues.Pairwise (fun a b => a.id ≠ b.id))
    (hmem : issue ∈ issues)
    (hexp : expiresNow now issue = true) :
    (checkExpiredIssues now teams issues).2.find? (fun i => i.id == issue.id) =
      some (resetIssue issue) := by
  have hfind₀ : issues.find? (fun i => i.id == issue.id) = some issue :=
    find?_eq_of_mem_unique issues issue hmem hids
  obtain ⟨L₁, L₂, rfl⟩ := List.append_of_mem hmem
  rcases List.pairwise_append.mp hids with ⟨_, hpair2, hcross⟩
  rcases List.pairwise_cons.mp hpair2 with ⟨hidsL₂, _⟩
  have hcondL₂ : ∀ j ∈ L₂, expiresNow now j = true → j.id ≠ issue.id :=
    fun j hj _ => Ne.symm (hidsL₂ j hj)
  have hcondL₁ : ∀ j ∈ L₁, expiresNow now j = true → j.id ≠ issue.id :=
    fun j hj _ => hcross j hj issue (List.mem_cons_self _ _)
  unfold checkExpiredIssues
  rw [sweepGo_append, sweepGo_cons]
  rw [sweepGo_issues_frame now teams L₂ issue.id _ hcondL₂]
  exact sweepStep_issues_reset now teams _ issue issue hexp
    ((sweepGo_issues_frame now teams L₁ issue.id _ hcondL₁).trans hfind₀)

theorem checkExpired_untouched (now : Int) (teams : List Team) (issues : List Issue)
    (hids : issues.Pairwise (fun a b => a.id ≠ b.id))
    (j : Issue) (hj : j ∈ issues) (hnexp : expiresNow now j = false) :
    (checkExpiredIssues now teams issues).2.find? (fun i => i.id == j.id) = some j := by
  have hcond : ∀ k ∈ issues, expiresNow now k = true → k.id ≠ j.id := by
    intro k hk hke h
    have hkj := id_unique_of_pairwise issues hids j hj k hk h
    rw [hkj, hnexp] at hke
    exact absurd hke (by simp)
  unfold checkExpiredIssues
  rw [sweepGo_issues_frame now teams issues j.id _ hcond]
  exact find?_eq_of_mem_unique issues j hj hids

/-! ## Claims -/

/-- C1: for any issue, across a history of claim attempts serialized by the
store's per-document transaction isolation, at most one attempt transitions
the issue from `open` to `occupied` (i.e. returns success: the transaction
body throws whenever the re-read status is not `open`, so a second commit on
the same issue is impossible); every other attempt on that issue observes a
terminal failure, a `success := false` result carrying an error message. -/
theorem claim1_exactly_once_per_issue (as : List Attempt) (issues : List Issue)
    (cache : QuotaCache) (iid : String) :
    successCount iid (runAttempts as issues cache).1 ≤ 1 ∧
    ∀ p ∈ (runAttempts as issues cache).1, p.2.success = false → p.2.error.isSome :=
  ⟨runAttempts_le_one iid as issues cache, runAttempts_fail_error as issues cache⟩

/-- Witness for C1: two teams race for the single open issue `I0`; the run
admits at most one success (and in fact exactly one, by evaluation). -/
theorem claim1_witness :
    successCount "I0" (runAttempts
      [⟨benignEnv, "I0", "TeamAlpha", 3⟩, ⟨benignEnv, "I0", "TeamBravo", 3⟩]
      [mkIssue "I0" "open" ["easy"] none none] []).1 ≤ 1 ∧
    successCount "I0" (runAttempts
      [⟨benignEnv, "I0", "TeamAlpha", 3⟩, ⟨benignEnv, "I0", "TeamBravo", 3⟩]
      [mkIssue "I0" "open" ["easy"] none none] []).1 = 1 :=
  ⟨(claim1_exactly_once_per_issue
      [⟨benignEnv, "I0", "TeamAlpha", 3⟩, ⟨benignEnv, "I0", "TeamBravo", 3⟩]
      [mkIssue "I0" "open" ["easy"] none none] [] "I0").1,
   by decide⟩

/-- Counterexample to C2 as stated: the store holds three issues occupied by
TeamAlpha, yet a claim by TeamAlpha on the open issue `I0` succeeds, because
the quota cache holds a fresh entry undercounting at 0, which makes the code
skip both the fresh-cache pre-check and the authoritative quota query.  The
claim demands `{success:false}` with the quota message on every such call. -/
theorem claim2_counterexample :
    3 ≤ (([mkIssue "E1" "occupied" ["easy"] (some "TeamAlpha") (some 1),
           mkIssue "E2" "occupied" ["easy"] (some "TeamAlpha") (some 1),
           mkIssue "E3" "occupied" ["easy"] (some "TeamAlpha") (some 1),
           mkIssue "I0" "open" ["easy"] none none].filter fun i =>
             i.assignedTo == some "TeamAlpha" && i.status == "occupied").length) ∧
    (occupyIssueTransaction benignEnv
      [mkIssue "E1" "occupied" ["easy"] (some "TeamAlpha") (some 1),
       mkIssue "E2" "occupied" ["easy"] (some "TeamAlpha") (some 1),
       mkIssue "E3" "occupied" ["easy"] (some "TeamAlpha") (some 1),
       mkIssue "I0" "open" ["easy"] none none]
      [("TeamAlpha", ⟨0, 0⟩)] "I0" "TeamAlpha" 3).result.success = true := by
  decide

/-- C2 (amended): for a team whose store count of occupied issues is at least
3, `occupyIssueTransaction` (on an existing open issue, with fault-free I/O
and at least one loop attempt) returns `{success:false}` with the
quota-exceeded message and modifies neither the store nor the cache -
provided the team's quota-cache entry is absent, expired, or itself reports a
count of at least 3; a fresh entry undercounting below 3 makes the code skip
the quota check entirely (see the counterexample).  The client-side
`occupyIssue` pre-check rejects with the same message from the local list
unconditionally.  After one of the occupied issues leaves `occupied` status,
a new claim by that team can succeed (concrete store with two occupied plus
one closed issue). -/
theorem claim2_amended (env : OccupyEnv) (issues : List Issue) (cache : QuotaCache)
    (issueId teamName : String) (mr : Nat) (issue : Issue)
    (st : ClientState) (cIssueId : String) (cnow : Int) (r0 r1 : OccupyResult)
    (team : Team) (cIssue : Issue)
    (hid : issueId ≠ "") (htm : teamName ≠ "")
    (hpre : env.preFault = none) (hqf : env.queryFault = none) (hmr : mr ≠ 0)
    (hfind : issues.find? (fun i => i.id == issueId) = some issue)
    (hopen : issue.status = "open")
    (hcount : 3 ≤ (issues.filter fun i =>
      i.assignedTo == some teamName && i.status == "occupied").length)
    (hcache : ∀ e, cache.lookup teamName = some e →
      env.now - e.timestamp < CACHE_TTL → 3 ≤ e.count)
    (hteam : st.currentTeam = some team)
    (hcfind : st.issues.find? (fun i => i.id == cIssueId) = some cIssue)
    (hcopen : cIssue.status = "open")
    (hccount : 3 ≤ (st.issues.filter fun i =>
      i.assignedTo == some team.name && i.status == "occupied").length) :
    occupyIssueTransaction env issues cache issueId teamName mr =
      ⟨⟨false, some quotaMsg⟩, issues, cache⟩ ∧
    occupyIssue st cIssueId true cnow r0 r1 = (⟨false, some quotaMsg⟩, st.issues) ∧
    (occupyIssueTransaction benignEnv
      [mkIssue "E1" "occupied" ["easy"] (some "TeamAlpha") (some 1),
       mkIssue "E2" "occupied" ["easy"] (some "TeamAlpha") (some 1),
       mkIssue "E3" "closed" ["easy"] (some "TeamAlpha") (some 1),
       mkIssue "I0" "open" ["easy"] none none] [] "I0" "TeamAlpha" 3).result.success
      = true := by
  refine ⟨?_,
    occupyIssue_quota st cIssueId cnow r0 r1 team cIssue hteam hcfind hcopen hccount,
    by decide⟩
  unfold occupyIssueTransaction
  rw [if_neg (by simp [hid, htm])]
  split
  · rename_i e heq
    rw [hpre] at heq
    simp at heq
  · split
    · rename_i hfq
      rw [hfind] at hfq
      simp at hfq
    · rename_i iss hfq
      rw [hfind] at hfq
      injection hfq with hfq'
      subst hfq'
      rw [if_neg (by simp [hopen])]
      split
      · rename_i e heq
        split
        · rename_i hfresh
          rw [if_pos (hcache e heq hfresh)]
        · exact occupyAttempt_quota env issues cache issueId teamName mr hmr hqf hcount
      · exact occupyAttempt_quota env issues cache issueId teamName mr hmr hqf hcount

/-- Witness for C2 (amended): TeamAlpha holds `E1 E2 E3` occupied, the cache
is empty, and a fourth claim on the open `I0` is rejected with the quota
message while the logged-in client rejects it locally as well. -/
theorem claim2_witness :
    occupyIssueTransaction benignEnv
      [mkIssue "E1" "occupied" ["easy"] (some "TeamAlpha") (some 1),
       mkIssue "E2" "occupied" ["easy"] (some "TeamAlpha") (some 1),
       mkIssue "E3" "occupied" ["easy"] (some "TeamAlpha") (some 1),
       mkIssue "I0" "open" ["easy"] none none] [] "I0" "TeamAlpha" 3 =
      ⟨⟨false, some quotaMsg⟩,
       [mkIssue "E1" "occupied" ["easy"] (some "TeamAlpha") (some 1),
        mkIssue "E2" "occupied" ["easy"] (some "TeamAlpha") (some 1),
        mkIssue "E3" "occupied" ["easy"] (some "TeamAlpha") (some 1),
        mkIssue "I0" "open" ["easy"] none none], []⟩ ∧
    occupyIssue
      ⟨some ⟨"TeamAlpha", 0, true⟩,
       [mkIssue "E1" "occupied" ["easy"] (some "TeamAlpha") (some 1),
        mkIssue "E2" "occupied" ["easy"] (some "TeamAlpha") (some 1),
        mkIssue "E3" "occupied" ["easy"] (some "TeamAlpha") (some 1),
        mkIssue "I0" "open" ["easy"] none none]⟩ "I0" true 5 ⟨true, none⟩ ⟨true, none⟩ =
      (⟨false, some quotaMsg⟩,
       [mkIssue "E1" "occupied" ["easy"] (some "TeamAlpha") (some 1),
        mkIssue "E2" "occupied" ["easy"] (some "TeamAlpha") (some 1),
        mkIssue "E3" "occupied" ["easy"] (some "TeamAlpha") (some 1),
        mkIssue "I0" "open" ["easy"] none none]) ∧
    (occupyIssueTransaction benignEnv
      [mkIssue "E1" "occupied" ["easy"] (some "TeamAlpha") (some 1),
       mkIssue "E2" "occupied" ["easy"] (some "TeamAlpha") (some 1),
       mkIssue "E3" "closed" ["easy"] (some "TeamAlpha") (some 1),
       mkIssue "I0" "open" ["easy"] none none] [] "I0" "TeamAlpha" 3).result.success
      = true :=
  claim2_amended benignEnv _ [] "I0" "TeamAlpha" 3
    (mkIssue "I0" "open" ["easy"] none none)
    ⟨some ⟨"TeamAlpha", 0, true⟩,
     [mkIssue "E1" "occupied" ["easy"] (some "TeamAlpha") (some 1),
      mkIssue "E2" "occupied" ["easy"] (some "TeamAlpha") (some 1),
      mkIssue "E3" "occupied" ["easy"] (some "TeamAlpha") (some 1),
      mkIssue "I0" "open" ["easy"] none none]⟩
    "I0" 5 ⟨true, none⟩ ⟨true, none⟩ ⟨"TeamAlpha", 0, true⟩
    (mkIssue "I0" "open" ["easy"] none none)
    (by decide) (by decide) rfl rfl (by decide) (by decide) rfl (by decide)
    (by intro e he _; simp at he) rfl (by decide) rfl (by decide)

/-- Counterexample to C3 as stated: an issue with status `occupied` and
`assignedTo` equal to the claiming team is rejected by the status pre-check
with the generic already-occupied message, not with the AlreadySelf message
the claim requires. -/
theorem claim3_counterexample :
    (occupyIssueTransaction benignEnv
      [mkIssue "I1" "occupied" ["easy"] (some "TeamBravo") (some 1)]
      [] "I1" "TeamBravo" 3).result =
      ⟨false, some "This issue is already occupied. Please choose another issue."⟩ ∧
    (occupyIssueTransaction benignEnv
      [mkIssue "I1" "occupied" ["easy"] (some "TeamBravo") (some 1)]
      [] "I1" "TeamBravo" 3).result.error ≠
      some "Your team is already assigned to this issue." := by
  decide

/-- C3 (amended): for an issue whose status is `occupied` and whose
`assignedTo` already equals the claiming team, `occupyIssueTransaction`
returns the generic already-occupied failure
`This issue is already occupied. Please choose another issue.` - not success
and not the AlreadySelf failure.  The AlreadySelf check sits behind the
status-open checks, so it can only fire when the document reads status `open`
with `assignedTo` already set. -/
theorem claim3_amended (env : OccupyEnv) (issues : List Issue) (cache : QuotaCache)
    (issueId teamName : String) (mr : Nat) (issue : Issue)
    (hid : issueId ≠ "") (htm : teamName ≠ "") (hpre : env.preFault = none)
    (hfind : issues.find? (fun i => i.id == issueId) = some issue)
    (hocc : issue.status = "occupied")
    (hself : issue.assignedTo = some teamName) :
    (occupyIssueTransaction env issues cache issueId teamName mr).result =
      ⟨false, some "This issue is already occupied. Please choose another issue."⟩ := by
  unfold occupyIssueTransaction
  rw [if_neg (by simp [hid, htm])]
  split
  · rename_i e heq
    rw [hpre] at heq
    simp at heq
  · split
    · rename_i hfq
      rw [hfind] at hfq
      simp at hfq
    · rename_i iss hfq
      rw [hfind] at hfq
      injection hfq with hfq'
      subst hfq'
      rw [if_pos (by simp [hocc])]
      rw [hocc]
      rfl

/-- Witness for C3 (amended). -/
theorem claim3_witness :
    (occupyIssueTransaction benignEnv
      [mkIssue "I2" "occupied" ["hard"] (some "TeamCharlie") (some 2)]
      [] "I2" "TeamCharlie" 3).result =
      ⟨false, some "This issue is already occupied. Please choose another issue."⟩ :=
  claim3_amended benignEnv
    [mkIssue "I2" "occupied" ["hard"] (some "TeamCharlie") (some 2)]
    [] "I2" "TeamCharlie" 3
    (mkIssue "I2" "occupied" ["hard"] (some "TeamCharlie") (some 2))
    (by decide) (by decide) rfl rfl rfl rfl

/-- C4: divergence from the claimed retry policy, evaluated at the failing
input.  The first transaction attempt throws a transient network error, and
the call returns immediately with the `ReferenceError` message produced by
the `lastError` temporal dead zone - not the transient error's own message,
with no backoff and no second attempt. The `includes('already')` terminal
short-circuit is equally unreachable, because `lastError = error` is the
first statement of the catch clause.  (The intended policy the claim
describes appears only in the unreachable duplicate at source lines 650-704.)
-/
theorem claim4_retry_tdz :
    (occupyIssueTransaction
      { benignEnv with
        txFault := some ⟨"network error: could not reach Cloud Firestore backend", none⟩ }
      [mkIssue "I0" "open" ["easy"] none none] [] "I0" "TeamBravo" 3).result =
      ⟨false, some "Cannot access lastError before initialization"⟩ ∧
    (occupyIssueTransaction
      { benignEnv with
        txFault := some ⟨"network error: could not reach Cloud Firestore backend", none⟩ }
      [mkIssue "I0" "open" ["easy"] none none] [] "I0" "TeamBravo" 3).result.error ≠
      some "network error: could not reach Cloud Firestore backend" ∧
    (occupyIssueTransaction
      { benignEnv with
        txFault := some ⟨"network error: could not reach Cloud Firestore backend", none⟩ }
      [mkIssue "I0" "open" ["easy"] none none] [] "I0" "TeamBravo" 3).issues =
      [mkIssue "I0" "open" ["easy"] none none] := by
  decide

/-- Counterexample to C5 as stated: two issues of the same team expire in the
same sweep - the easy `E1` and the hard `E2`, team points 20.  Each loop
iteration computes its deduction from the fixed pre-sweep snapshot and the
last write wins, so the team ends at `max 0 (20-15) = 5`.  The claim instance
for the expired easy issue `E1` demands final points
`max 0 (20 - penalty easy) = 15`, which fails. -/
theorem claim5_counterexample :
    expiresNow 3600002 (mkIssue "E1" "occupied" ["easy"] (some "T") (some 1)) = true ∧
    expiresNow 3600002 (mkIssue "E2" "occupied" ["hard"] (some "T") (some 1)) = true ∧
    (checkExpiredIssues 3600002 [⟨"T", 20, false⟩]
      [mkIssue "E1" "occupied" ["easy"] (some "T") (some 1),
       mkIssue "E2" "occupied" ["hard"] (some "T") (some 1)]).1 = [⟨"T", 5, false⟩] ∧
    (5 : Int) ≠ max 0 (20 - penaltyFor (some "easy")) := by
  decide

/-- C5 (amended): for an issue with status `occupied`, a truthy (non-zero)
`occupiedAt` and a truthy (non-empty) `assignedTo`, held for at least the
time limit of its first tag (easy 20min / medium 40min / hard 60min, medium
for an unrecognized tag), one pass of the expiry sweep sets the assigned
team's points to `max 0 (points - penalty)` (penalty easy 5 / medium 10 /
hard 15, else 0) and resets the issue to `open` with `assignedTo`,
`occupiedAt` and `closedAt` cleared - provided issue ids are unique and no
other issue of the same team expires in the same sweep (otherwise each
expired issue deducts from the same pre-sweep snapshot and the last write
wins, see the counterexample).  Issues held for less than their time limit
are left unchanged. -/
theorem claim5_amended (now t : Int) (teams : List Team) (issues : List Issue)
    (issue : Issue) (tm : String) (team : Team)
    (hids : issues.Pairwise (fun a b => a.id ≠ b.id))
    (hmem : issue ∈ issues)
    (hst : issue.status = "occupied")
    (hocc : issue.occupiedAt = some t) (ht0 : t ≠ 0)
    (hass : issue.assignedTo = some tm) (htm : tm ≠ "")
    (hel : timeoutFor issue.tags.head? ≤ now - t)
    (hteam : teams.find? (fun x => x.name == tm) = some team)
    (honly : ∀ j ∈ issues, j.id ≠ issue.id →
      ¬(expiresNow now j = true ∧ j.assignedTo = some tm)) :
    ((checkExpiredIssues now teams issues).1.find? (fun x => x.name == tm) =
      some { team with points := max 0 (team.points - penaltyFor issue.tags.head?) }) ∧
    ((checkExpiredIssues now teams issues).2.find? (fun i => i.id == issue.id) =
      some (resetIssue issue)) ∧
    (∀ j ∈ issues, expiresNow now j = false →
      (checkExpiredIssues now teams issues).2.find? (fun i => i.id == j.id) = some j) := by
  have hexp : expiresNow now issue = true := by
    unfold expiresNow jsTruthyNum jsTruthyStr
    rw [hst, hocc, hass]
    simp [ht0, htm, hel]
  exact ⟨checkExpired_team_points now teams issues issue tm team hids hmem hexp hass
           hteam honly,
         checkExpired_issue_reset now teams issues issue hids hmem hexp,
         fun j hj hn => checkExpired_untouched now teams issues hids j hj hn⟩

/-- Witness for C5 (amended): TeamBravo with 3 points holds the hard issue
`H1` for exactly its 60 minute limit; the sweep floors the penalty at 0
points and reopens the issue. -/
theorem claim5_witness :
    ((checkExpiredIssues 3600001 [⟨"TeamBravo", 3, false⟩]
        [mkIssue "H1" "occupied" ["hard"] (some "TeamBravo") (some 1)]).1.find?
      (fun x => x.name == "TeamBravo") =
      some { (⟨"TeamBravo", 3, false⟩ : Team) with
             points := max 0 (3 - penaltyFor (mkIssue "H1" "occupied" ["hard"]
               (some "TeamBravo") (some 1)).tags.head?) }) ∧
    ((checkExpiredIssues 3600001 [⟨"TeamBravo", 3, false⟩]
        [mkIssue "H1" "occupied" ["hard"] (some "TeamBravo") (some 1)]).2.find?
      (fun i => i.id == (mkIssue "H1" "occupied" ["hard"]
        (some "TeamBravo") (some 1)).id) =
      some (resetIssue (mkIssue "H1" "occupied" ["hard"] (some "TeamBravo") (some 1)))) ∧
    (∀ j ∈ [mkIssue "H1" "occupied" ["hard"] (some "TeamBravo") (some 1)],
      expiresNow 3600001 j = false →
      (checkExpiredIssues 3600001 [⟨"TeamBravo", 3, false⟩]
        [mkIssue "H1" "occupied" ["hard"] (some "TeamBravo") (some 1)]).2.find?
        (fun i => i.id == j.id) = some j) :=
  claim5_amended 3600001 1 [⟨"TeamBravo", 3, false⟩]
    [mkIssue "H1" "occupied" ["hard"] (some "TeamBravo") (some 1)]
    (mkIssue "H1" "occupied" ["hard"] (some "TeamBravo") (some 1))
    "TeamBravo" ⟨"TeamBravo", 3, false⟩
    (by decide) (by decide) rfl rfl (by decide) rfl (by decide) (by decide)
    (by decide) (by decide)

/-- C6: the merge award is not idempotent.  Setting `prStatus` to `merged` on
the closed easy issue `I1` held by TeamBravo raises its points from 0 to
exactly 10 (the first tag's value), but re-submitting `merged` on the
already-merged issue awards the 10 points again, to 20 - `updatePrStatus`
has no guard on the previous `prStatus`. -/
theorem claim6_double_award :
    (updatePrStatus [⟨"TeamBravo", 0, true⟩]
      [{ mkIssue "I1" "closed" ["easy"] (some "TeamBravo") (some 5) with
         closedAt := some 9, prUrl := some "https://github.com/example/pr/1",
         prStatus := some "pending" }] "I1" "merged").1 =
      [⟨"TeamBravo", 10, true⟩] ∧
    (updatePrStatus
      (updatePrStatus [⟨"TeamBravo", 0, true⟩]
        [{ mkIssue "I1" "closed" ["easy"] (some "TeamBravo") (some 5) with
           closedAt := some 9, prUrl := some "https://github.com/example/pr/1",
           prStatus := some "pending" }] "I1" "merged").1
      (updatePrStatus [⟨"TeamBravo", 0, true⟩]
        [{ mkIssue "I1" "closed" ["easy"] (some "TeamBravo") (some 5) with
           closedAt := some 9, prUrl := some "https://github.com/example/pr/1",
           prStatus := some "pending" }] "I1" "merged").2 "I1" "merged").1 =
      [⟨"TeamBravo", 20, true⟩] := by
  decide

/-- C7: any claim through the client `occupyIssue` that passes the local
pre-checks (logged in, online, issue present and open, fewer than 3 occupied)
and whose wrapped transaction ultimately fails - timeout, exhausted retries
or any other `{success:false}` result - leaves the client issue list equal to
the pre-attempt snapshot: the speculative status/assignedTo/occupiedAt
mutation is rolled back wholesale. -/
theorem claim7_rollback (st : ClientState) (issueId : String) (now : Int)
    (r0 r1 : OccupyResult) (team : Team) (issue : Issue)
    (hteam : st.currentTeam = some team)
    (hfind : st.issues.find? (fun i => i.id == issueId) = some issue)
    (hopen : issue.status = "open")
    (hcount : (st.issues.filter fun i =>
      i.assignedTo == some team.name && i.status == "occupied").length < 3)
    (hfail : (occupyIssue st issueId true now r0 r1).1.success = false) :
    (occupyIssue st issueId true now r0 r1).2 = st.issues :=
  occupyIssue_fail_snd st issueId true now r0 r1 hfail

/-- Witness for C7: a timed-out first attempt and a terminal second attempt;
the local list is restored to the snapshot. -/
theorem claim7_witness :
    (occupyIssue ⟨some ⟨"TeamBravo", 0, true⟩, [mkIssue "I0" "open" ["easy"] none none]⟩
      "I0" true 5 ⟨false, some "Transaction timed out. Please try again."⟩
      ⟨false, some "This issue is already occupied. Please choose another issue."⟩).2 =
      [mkIssue "I0" "open" ["easy"] none none] :=
  claim7_rollback
    ⟨some ⟨"TeamBravo", 0, true⟩, [mkIssue "I0" "open" ["easy"] none none]⟩
    "I0" 5 ⟨false, some "Transaction timed out. Please try again."⟩
    ⟨false, some "This issue is already occupied. Please choose another issue."⟩
    ⟨"TeamBravo", 0, true⟩ (mkIssue "I0" "open" ["easy"] none none)
    rfl rfl rfl (by decide) (by decide)

/-- C8: no call to `occupyIssueTransaction` ever evicts a quota-cache entry -
not even a call whose `Math.random()` draw is below the 10 percent threshold
acting on an entry older than the TTL.  The eviction block at source lines
736-744 follows a try/catch in which every path returns, so it is
unreachable, and the cache key survives every execution path. -/
theorem claim8_no_eviction (env : OccupyEnv) (issues : List Issue) (cache : QuotaCache)
    (issueId teamName : String) (mr : Nat) (team : String) (e : CacheEntry)
    (hrand : env.rand < 1 / 10)
    (hlook : cache.lookup team = some e)
    (hexpired : CACHE_TTL < env.now - e.timestamp) :
    ((occupyIssueTransaction env issues cache issueId teamName mr).cache.lookup
      team).isSome :=
  occupy_cache_isSome env issues cache issueId teamName mr team (by rw [hlook]; rfl)

/-- Witness for C8: the draw is 0 (below 0.1) and TeamAlpha's entry is 10
seconds old (TTL is 5 seconds), yet the entry survives the call. -/
theorem claim8_witness :
    ((occupyIssueTransaction expiredCacheEnv
      [mkIssue "I0" "open" ["easy"] none none]
      [("TeamAlpha", ⟨1, 0⟩)] "I0" "TeamBravo" 3).cache.lookup "TeamAlpha").isSome :=
  claim8_no_eviction expiredCacheEnv [mkIssue "I0" "open" ["easy"] none none]
    [("TeamAlpha", ⟨1, 0⟩)] "I0" "TeamBravo" 3 "TeamAlpha" ⟨1, 0⟩
    (by norm_num [expiredCacheEnv]) (by decide) (by decide)

/-- C9: `closeIssue` with an empty or whitespace-only PR URL returns
`{success:false, error:'PR URL is required'}` and performs no store update;
with a non-empty URL it returns `{success:true}` and writes status `closed`,
`closedAt := now`, the trimmed URL and `prStatus := 'pending'` to the
issue. -/
theorem claim9_closeIssue (issues : List Issue) (issueId prUrl : String) (now : Int)
    (issue : Issue) (hfind : issues.find? (fun i => i.id == issueId) = some issue) :
    (jsTrim prUrl = "" →
      closeIssue issues issueId prUrl now = (⟨false, some "PR URL is required"⟩, issues)) ∧
    (jsTrim prUrl ≠ "" →
      (closeIssue issues issueId prUrl now).1 = ⟨true, none⟩ ∧
      (closeIssue issues issueId prUrl now).2.find? (fun i => i.id == issueId) =
        some { issue with status := "closed", closedAt := some now,
                          prUrl := some (jsTrim prUrl), prStatus := some "pending" }) := by
  constructor
  · intro htrim
    unfold closeIssue
    rw [if_pos (by simp [htrim])]
  · intro htrim
    have h0 : prUrl ≠ "" := by
      intro h
      subst h
      exact htrim (by decide)
    unfold closeIssue
    rw [if_neg (by simp [h0, htrim])]
    refine ⟨rfl, ?_⟩
    rw [find?_map_idPreserving _ (fun i => by split <;> rfl) issues issueId]
    rw [hfind]
    have hid : issue.id = issueId := by
      simpa using List.find?_some hfind
    simp [hid]

/-- Witness for C9: closing `I1` with the padded URL writes the trimmed URL,
and closing with a whitespace-only URL is rejected without touching the
store. -/
theorem claim9_witness :
    (jsTrim " https://github.com/example/pr/7 " = "" →
      closeIssue [mkIssue "I1" "occupied" ["easy"] (some "TeamBravo") (some 1)]
        "I1" " https://github.com/example/pr/7 " 9 =
        (⟨false, some "PR URL is required"⟩,
         [mkIssue "I1" "occupied" ["easy"] (some "TeamBravo") (some 1)])) ∧
    (jsTrim " https://github.com/example/pr/7 " ≠ "" →
      (closeIssue [mkIssue "I1" "occupied" ["easy"] (some "TeamBravo") (some 1)]
        "I1" " https://github.com/example/pr/7 " 9).1 = ⟨true, none⟩ ∧
      (closeIssue [mkIssue "I1" "occupied" ["easy"] (some "TeamBravo") (some 1)]
        "I1" " https://github.com/example/pr/7 " 9).2.find? (fun i => i.id == "I1") =
        some { mkIssue "I1" "occupied" ["easy"] (some "TeamBravo") (some 1) with
               status := "closed", closedAt := some 9,
               prUrl := some (jsTrim " https://github.com/example/pr/7 "),
               prStatus := some "pending" }) :=
  claim9_closeIssue [mkIssue "I1" "occupied" ["easy"] (some "TeamBravo") (some 1)]
    "I1" " https://github.com/example/pr/7 " 9
    (mkIssue "I1" "occupied" ["easy"] (some "TeamBravo") (some 1)) rfl

/-- C10: `updatePrStatus` with `approved` or `rejected` leaves every team -
and in particular every team's points - unchanged, and rewrites the issue
list only at the target issue's `prStatus` field. -/
theorem claim10_prStatus_frame (teams : List Team) (issues : List Issue)
    (issueId s : String) (h : s = "approved" ∨ s = "rejected") :
    (updatePrStatus teams issues issueId s).1 = teams ∧
    (updatePrStatus teams issues issueId s).2 =
      issues.map fun i =>
        if i.id == issueId then { i with prStatus := some s } else i := by
  rcases h with h | h <;> subst h <;>
    · simp only [updatePrStatus]
      rw [if_neg (by decide)]
      exact ⟨rfl, rfl⟩

/-- Witness for C10: approving the pending PR on `I1` changes only its
`prStatus`; TeamBravo's points are untouched. -/
theorem claim10_witness :
    (updatePrStatus [⟨"TeamBravo", 0, true⟩]
      [mkIssue "I1" "closed" ["easy"] (some "TeamBravo") (some 5)] "I1" "approved").1 =
      [⟨"TeamBravo", 0, true⟩] ∧
    (updatePrStatus [⟨"TeamBravo", 0, true⟩]
      [mkIssue "I1" "closed" ["easy"] (some "TeamBravo") (some 5)] "I1" "approved").2 =
      [mkIssue "I1" "closed" ["easy"] (some "TeamBravo") (some 5)].map fun i =>
        if i.id == "I1" then { i with prStatus := some "approved" } else i :=
  claim10_prStatus_frame [⟨"TeamBravo", 0, true⟩]
    [mkIssue "I1" "closed" ["easy"] (some "TeamBravo") (some 5)] "I1" "approved"
    (Or.inl rfl)

end Contribx
